import Mathlib

/-!
# Verification of the car-recsys-consultant-chatbot core behaviour

This file embeds, in Lean, the parts of the repository that the checked
claims are about:

* the `gold` SQL layer (`gold.user_interactions` table and the
  `gold.popular_vehicles` view from the schema file);
* the frontend service layer (`src/lib/api.ts`: `isAuthenticated`,
  `trackVehicleView`, `trackVehicleClick`, `handleResponse`) and the chat
  UI handlers (`ChatPopup.tsx` / `ChatPage.tsx` `handleSend`,
  `CompareModal.tsx` search filter);
* the backend recommendation / conversational-retrieval engine, which is
  not part of the visible sources; those definitions are modelled from the
  specification and are marked `Modelled from the spec:` in their doc
  comments.

All machine arithmetic is over `Nat` / `Rat`; timestamps are minutes since
an arbitrary epoch, and ages in days are obtained by integer division by
1440 (minutes per day).
-/

/-- The interaction types accepted by the system
(`interaction_type TEXT -- view, click, favorite, compare, contact`
in `gold.user_interactions`). -/
inductive IType where
  | view
  | click
  | favorite
  | compare
  | contact
deriving DecidableEq, Repr

/-- One row of `gold.user_interactions`.
`id` is the `SERIAL PRIMARY KEY`; `user_id` is a nullable foreign key
(`user_id UUID REFERENCES gold.users(id)`, no `NOT NULL`);
`created_at` is `TIMESTAMP DEFAULT NOW()`, embedded as minutes. -/
structure InteractionRow where
  id : Nat
  user_id : Option String
  vehicle_id : String
  interaction_type : IType
  created_at : Nat
deriving DecidableEq, Repr

/-- The `gold.user_interactions` table together with the `SERIAL`
sequence state. -/
structure InteractionsTable where
  rows : List InteractionRow
  nextId : Nat
deriving DecidableEq, Repr

/-- The empty `gold.user_interactions` table. -/
def InteractionsTable.empty : InteractionsTable := ⟨[], 0⟩

/-- `INSERT INTO gold.user_interactions ...`: appends a row whose `id` is
drawn from the `SERIAL` sequence.  This is the write performed by the
`POST /api/v1/interactions/track` endpoint that `interactionsApi.track`
calls; the schema places no uniqueness constraint on
`(user_id, vehicle_id, interaction_type, created_at)`. -/
def recordInteraction (t : InteractionsTable) (u : Option String)
    (v : String) (ty : IType) (occurredAt : Nat) : InteractionsTable :=
  { rows := t.rows ++ [⟨t.nextId, u, v, ty, occurredAt⟩]
    nextId := t.nextId + 1 }

/-- `COUNT(DISTINCT ui.id)` over the rows of `gold.user_interactions`
joined to a given vehicle: the `total_interactions` aggregate of the
`gold.popular_vehicles` view. -/
def totalInteractions (rows : List InteractionRow) (v : String) : Nat :=
  (((rows.filter (fun r => r.vehicle_id = v)).map (fun r => r.id)).toFinset).card

/-- `COUNT(DISTINCT CASE WHEN ui.interaction_type = ty THEN ui.id END)`:
the `favorites` / `views` aggregates of `gold.popular_vehicles`. -/
def typedInteractions (rows : List InteractionRow) (v : String) (ty : IType) : Nat :=
  (((rows.filter (fun r => r.vehicle_id = v ∧ r.interaction_type = ty)).map
      (fun r => r.id)).toFinset).card

/-- A vehicle record as selected by the `gold.popular_vehicles` view from
`raw.used_vehicles` (the columns relevant to the claims, plus
`created_at`, which the view does NOT select). -/
structure VehicleRow where
  vehicle_id : String
  brand : String
  price : Rat
  created_at : Nat
deriving DecidableEq, Repr

/-- One output row of the `gold.popular_vehicles` view. -/
structure PopularRow where
  vehicle_id : String
  brand : String
  price : Rat
  total_interactions : Nat
  favorites : Nat
  views : Nat
deriving DecidableEq, Repr

/-- The per-vehicle aggregation step of `gold.popular_vehicles`
(`LEFT JOIN gold.user_interactions ... GROUP BY v.vehicle_id, ...`). -/
def popularRowOf (rows : List InteractionRow) (v : VehicleRow) : PopularRow :=
  { vehicle_id := v.vehicle_id
    brand := v.brand
    price := v.price
    total_interactions := totalInteractions rows v.vehicle_id
    favorites := typedInteractions rows v.vehicle_id .favorite
    views := typedInteractions rows v.vehicle_id .view }

/-- `ORDER BY total_interactions DESC` as a relation on view rows.  The
view orders by this single key only; SQL leaves the relative order of
tied rows unspecified, and the embedding resolves ties by keeping the
underlying table order (stable sort). -/
def popRel (a b : PopularRow) : Prop :=
  b.total_interactions ≤ a.total_interactions

instance : DecidableRel popRel := fun a b =>
  inferInstanceAs (Decidable (b.total_interactions ≤ a.total_interactions))

instance : IsTotal PopularRow popRel :=
  ⟨fun a b => Nat.le_total b.total_interactions a.total_interactions⟩

instance : IsTrans PopularRow popRel :=
  ⟨fun _ _ _ h1 h2 => Nat.le_trans h2 h1⟩

/-- The `gold.popular_vehicles` view: one aggregated row per catalog
vehicle, sorted by `total_interactions DESC`. -/
def popularVehicles (vs : List VehicleRow) (rows : List InteractionRow) :
    List PopularRow :=
  (vs.map (popularRowOf rows)).insertionSort popRel

/-- `GET /api/v1/reco/popular?limit=L` as called by
`recommendationsApi.getPopular`: the first `L` rows of the
`gold.popular_vehicles` view, projected to vehicle ids (the backend
endpoint that applies the limit is not among the visible sources; taking
a prefix of the ordered view is the only limit semantics compatible with
the view). -/
def popularIds (vs : List VehicleRow) (rows : List InteractionRow) (limit : Nat) :
    List String :=
  ((popularVehicles vs rows).take limit).map (fun r => r.vehicle_id)

/-- Age in whole days of a timestamp (minutes) at query time `now`. -/
def ageDays (now createdAt : Nat) : Nat := (now - createdAt) / 1440

/-- The spec formula for a decayed popularity score:
`score = Σ weight(type) * decay(age_days)`, with the decay function and
the per-type base weights abstracted. -/
def specPopScore (w : IType → Rat) (d : Nat → Rat) (now : Nat)
    (rows : List InteractionRow) (v : String) : Rat :=
  ((rows.filter (fun r => r.vehicle_id = v)).map
      (fun r => w r.interaction_type * d (ageDays now r.created_at))).sum

/-- The constraints the spec places on the decay factor: no decay at age
zero, a 14-day half-life, and monotone decay (any `exp(-λ·age)` with
`λ = ln 2 / 14` satisfies all three). -/
def SpecDecay (d : Nat → Rat) : Prop :=
  d 0 = 1 ∧ d 14 = 1 / 2 ∧ ∀ m n : Nat, m ≤ n → d n ≤ d m

/-- The constraints the spec places on the per-type base weights:
`favorite > contact > compare > click > view`, all positive. -/
def SpecWeights (w : IType → Rat) : Prop :=
  w .contact < w .favorite ∧ w .compare < w .contact ∧
    w .click < w .compare ∧ w .view < w .click ∧ 0 < w .view

/-! ## Similarity Index (Modelled from the spec: §4.3; the backend index is
not among the visible sources) -/

/-- A vehicle as stored in the similarity index: id, price (tie-break key)
and its content embedding. -/
structure EmbVehicle where
  vehicle_id : String
  price : Rat
  embedding : List Rat
deriving DecidableEq, Repr

/-- Dot product of two embedding vectors. -/
def dotp (a b : List Rat) : Rat := (List.zipWith (fun x y => x * y) a b).sum

/-- Cosine distance (`1 − cosine similarity`) over L2-normalized
embeddings, for which the cosine similarity is the dot product. -/
def cosDist (a b : List Rat) : Rat := 1 - dotp a b

/-- Recommendation-path errors from the spec error taxonomy. -/
inductive RecoError where
  | noHistory
  | dimensionMismatch
deriving DecidableEq, Repr

/-- Ordering of candidates: by cosine distance to the query, ties broken
by lower price then lexicographic id. -/
def nnRel (q : List Rat) (a b : EmbVehicle) : Prop :=
  cosDist q a.embedding < cosDist q b.embedding ∨
    (cosDist q a.embedding = cosDist q b.embedding ∧
      (a.price < b.price ∨ (a.price = b.price ∧ a.vehicle_id ≤ b.vehicle_id)))

instance (q : List Rat) : DecidableRel (nnRel q) := fun _ _ =>
  inferInstanceAs (Decidable (_ ∨ _))

/-- Modelled from the spec: `nearest(query_embedding, k, exclude)` of the
Similarity Index (§4.3) — the backend k-NN search is not among the visible
sources.  Vehicles in `exclude` or without an embedding of the index
dimensionality `dim` are excluded; a query of mismatched dimensionality
fails with `DimensionMismatch`; an empty index yields zero results. -/
def nearest (dim : Nat) (index : List EmbVehicle) (q : List Rat) (k : Nat)
    (exclude : List String) : Except RecoError (List String) :=
  if q.length = dim then
    .ok ((((index.filter (fun v =>
        v.embedding.length = dim ∧ v.vehicle_id ∉ exclude)).insertionSort
          (nnRel q)).take k).map (fun v => v.vehicle_id))
  else
    .error .dimensionMismatch

/-- Modelled from the spec: `similar(v, k)` — "similar to X" lookups call
`nearest` with an `exclude` set that always contains the query vehicle
itself (§4.3); the `GET /api/v1/reco/similar/{id}` endpoint behind
`recommendationsApi.getSimilar` is not among the visible sources.  On a
`DimensionMismatch` of the query vehicle itself the endpoint returns no
recommendations. -/
def similar (dim : Nat) (index : List EmbVehicle) (v : EmbVehicle) (k : Nat) :
    List String :=
  match nearest dim index v.embedding k [v.vehicle_id] with
  | .ok l => l
  | .error _ => []

/-- `CompareModal.tsx` search effect:
`response.items.filter(v => v.vehicle_id !== currentVehicleId)`. -/
def compareModalFilter (currentVehicleId : String) (items : List EmbVehicle) :
    List EmbVehicle :=
  items.filter (fun v => v.vehicle_id ≠ currentVehicleId)

/-! ## Personalization Ranker (Modelled from the spec: §4.4; the backend
ranker is not among the visible sources) -/

/-- Base weights for interaction types, fixed with
`favorite > contact > compare > click > view` (spec §3). -/
def baseWeight : IType → Rat
  | .favorite => 5
  | .contact => 4
  | .compare => 3
  | .click => 2
  | .view => 1

/-- Minimum number of weighted interactions below which personalization
fails with `NoHistory` (spec default: 3). -/
def minInteractions : Nat := 3

/-- Number of most recent interactions used for the profile centroid
(spec default: N = 50). -/
def profileLastN : Nat := 50

/-- Interactions of a given user, from `gold.user_interactions`. -/
def userEvents (rows : List InteractionRow) (u : String) : List InteractionRow :=
  rows.filter (fun r => r.user_id = some u)

/-- Newest-first ordering of interaction rows (`created_at DESC`). -/
def recentRel (a b : InteractionRow) : Prop := b.created_at ≤ a.created_at

instance : DecidableRel recentRel := fun a b =>
  inferInstanceAs (Decidable (b.created_at ≤ a.created_at))

/-- Pointwise sum of two vectors. -/
def vadd (a b : List Rat) : List Rat := List.zipWith (fun x y => x + y) a b

/-- Scale a vector. -/
def vsmul (c : Rat) (a : List Rat) : List Rat := a.map (fun x => c * x)

/-- Modelled from the spec: the UserProfile centroid (§4.4) — a weighted
sum of the content embeddings of the vehicles the user interacted with,
with weight `base_weight(type) * decay(age_days)` (the decay function is
a parameter, standing for `exp(-λ_profile * age_days)`). -/
def profileCentroid (dim : Nat) (d : Nat → Rat) (now : Nat)
    (index : List EmbVehicle) (evs : List InteractionRow) : List Rat :=
  evs.foldl
    (fun acc r =>
      match index.find? (fun v => v.vehicle_id = r.vehicle_id) with
      | some v =>
          if v.embedding.length = dim then
            vadd acc (vsmul (baseWeight r.interaction_type *
              d (ageDays now r.created_at)) v.embedding)
          else acc
      | none => acc)
    (List.replicate dim 0)

/-- Candidate ordering for personalization: by descending similarity score. -/
def scoreRel (score : EmbVehicle → Rat) (a b : EmbVehicle) : Prop :=
  score b ≤ score a

instance (score : EmbVehicle → Rat) : DecidableRel (scoreRel score) := fun a b =>
  inferInstanceAs (Decidable (score b ≤ score a))

/-- Modelled from the spec: `rank_for_user(user_id, limit)` of the
Personalization Ranker (§4.4) — the backend behind
`recommendationsApi.getPersonalized` (`GET /api/v1/reco/for-you`) is not
among the visible sources.  Fails with `NoHistory` when the user has
fewer than `minInteractions` interactions; otherwise scores every
candidate with an embedding that the user has not interacted with by
similarity to the profile centroid built from the last `profileLastN`
interactions. -/
def rankForUser (dim : Nat) (d : Nat → Rat) (now : Nat)
    (index : List EmbVehicle) (rows : List InteractionRow) (u : String)
    (limit : Nat) : Except RecoError (List String) :=
  let evs := userEvents rows u
  if evs.length < minInteractions then
    .error .noHistory
  else
    let recent := (evs.insertionSort recentRel).take profileLastN
    let centroid := profileCentroid dim d now index recent
    let seen := evs.map (fun r => r.vehicle_id)
    let cands := index.filter (fun v =>
      v.embedding.length = dim ∧ v.vehicle_id ∉ seen)
    .ok (((cands.insertionSort
        (scoreRel (fun v => dotp centroid v.embedding))).take limit).map
          (fun v => v.vehicle_id))

/-- Modelled from the spec: the caller surface of `GET personalized` —
"fails with `NoHistory`, caller should fall back to `popular`" (§6, §4.4). -/
def personalizedOrPopular (dim : Nat) (d : Nat → Rat) (now : Nat)
    (index : List EmbVehicle) (vs : List VehicleRow)
    (rows : List InteractionRow) (u : String) (limit : Nat) : List String :=
  match rankForUser dim d now index rows u limit with
  | .ok l => l
  | .error _ => popularIds vs rows limit

/-! ## Conversation State Manager and Conversational Retrieval Engine
(Modelled from the spec: §4.6, §6; the backend chat service behind
`chatApi` is not among the visible sources) -/

/-- Message roles (`role ∈ {user, assistant}`). -/
inductive Role where
  | user
  | assistant
deriving DecidableEq, Repr

/-- A persisted chat message
(`{id, conversation_id, role, content, cited_vehicle_ids[], created_at}`). -/
structure ChatMsg where
  id : Nat
  conversation_id : Nat
  role : Role
  content : String
  cited_vehicle_ids : List String
  created_at : Nat
deriving DecidableEq, Repr

/-- The conversation / message store of the Conversation State Manager,
with id sequences and a logical clock for `created_at`. -/
structure ChatStore where
  convs : List Nat
  msgs : List ChatMsg
  nextConv : Nat
  nextMsg : Nat
  clock : Nat
deriving DecidableEq, Repr

/-- Chat-path errors from the spec error taxonomy. -/
inductive ChatError where
  | notFound
  | embeddingUnavailable
deriving DecidableEq, Repr

/-- The response of `send_message`
(`{conversation_id, message_id, response_text, cited_vehicles[]}`). -/
structure ChatResp where
  conversation_id : Nat
  message_id : Nat
  response : String
  vehicles : List String
deriving DecidableEq, Repr

/-- Modelled from the spec: the fixed apology text returned when the
completion service fails twice (the spec fixes only that the message is a
fixed apology with no citations, not its wording). -/
def apologyText : String :=
  "Apologies - the assistant could not generate a response right now. Please try again."

/-- Number of retrieved candidates, `k = 8` (spec §4.6 RETRIEVING). -/
def retrieveK : Nat := 8

/-- Retrieved candidates are capped to the top few by similarity when
attached to the message as citations (spec §4.6, citation extraction);
the frontend renders at most 3-4 of them. -/
def citeCap : Nat := 3

/-- Modelled from the spec: the RETRIEVING step of a turn (§4.6): the
Similarity Index is queried with `k = 8` and an empty `exclude` set; zero
results (or a dimension mismatch of the stored query) degrade to an empty
candidate set rather than an error. -/
def retrievedCandidates (dim : Nat) (index : List EmbVehicle) (q : List Rat) :
    List String :=
  match nearest dim index q retrieveK [] with
  | .ok l => l
  | .error _ => []

/-- Modelled from the spec: one `send_message` turn of the Conversational
Retrieval Engine (§4.6).  The external services are oracles: `embedSvc`
is the embedding service result (`none` = failure) and `complete1`,
`complete2` the results of the completion call and its single retry.
A new conversation is created when `cid?` is absent; an unknown
conversation id fails with `NotFound`; the user message is always
persisted before the external calls; an embedding failure fails the turn
with `EmbeddingUnavailable` (no partial assistant message); a completion
failure is retried once and then degrades to the fixed apology with no
cited vehicles. -/
def sendMessage (dim : Nat) (embedSvc : Option (List Rat))
    (complete1 complete2 : Option String) (index : List EmbVehicle)
    (st : ChatStore) (cid? : Option Nat) (text : String) :
    ChatStore × Except ChatError ChatResp :=
  match cid? with
  | some c =>
      if c ∈ st.convs then sendMessageIn dim embedSvc complete1 complete2 index st c text
      else (st, .error .notFound)
  | none =>
      let st1 : ChatStore :=
        { st with
            convs := st.convs ++ [st.nextConv]
            nextConv := st.nextConv + 1 }
      sendMessageIn dim embedSvc complete1 complete2 index st1 st.nextConv text
where
  /-- The turn proper, once the conversation exists. -/
  sendMessageIn (dim : Nat) (embedSvc : Option (List Rat))
      (complete1 complete2 : Option String) (index : List EmbVehicle)
      (st : ChatStore) (cid : Nat) (text : String) :
      ChatStore × Except ChatError ChatResp :=
    let userMsg : ChatMsg := ⟨st.nextMsg, cid, .user, text, [], st.clock⟩
    let st2 : ChatStore :=
      { st with
          msgs := st.msgs ++ [userMsg]
          nextMsg := st.nextMsg + 1
          clock := st.clock + 1 }
    match embedSvc with
    | none => (st2, .error .embeddingUnavailable)
    | some q =>
        let cands := retrievedCandidates dim index q
        let gen : String × List String :=
          match complete1 with
          | some r => (r, cands.take citeCap)
          | none =>
              match complete2 with
              | some r => (r, cands.take citeCap)
              | none => (apologyText, [])
        let asstMsg : ChatMsg :=
          ⟨st2.nextMsg, cid, .assistant, gen.1, gen.2, st2.clock⟩
        let st3 : ChatStore :=
          { st2 with
              msgs := st2.msgs ++ [asstMsg]
              nextMsg := st2.nextMsg + 1
              clock := st2.clock + 1 }
        (st3, .ok ⟨cid, asstMsg.id, gen.1, gen.2⟩)

/-- Modelled from the spec: `chat_messages(conversation_id)` — the
messages of a conversation in transcript (`created_at`) order; an unknown
conversation id fails with `NotFound` (§6, §7). -/
def chatMessages (st : ChatStore) (cid : Nat) : Except ChatError (List ChatMsg) :=
  if cid ∈ st.convs then
    .ok (st.msgs.filter (fun m => m.conversation_id = cid))
  else
    .error .notFound

/-- Modelled from the spec: `DELETE chat_conversation(conversation_id)` —
removes the conversation and cascades to its messages (§4.6, §3). -/
def deleteConversation (st : ChatStore) (cid : Nat) : ChatStore :=
  { st with
      convs := st.convs.erase cid
      msgs := st.msgs.filter (fun m => m.conversation_id ≠ cid) }

/-- Well-formedness of the store: conversation ids are distinct and below
the id sequence, and every message belongs to a live conversation. -/
def StoreWF (st : ChatStore) : Prop :=
  st.convs.Nodup ∧ (∀ c ∈ st.convs, c < st.nextConv) ∧
    ∀ m ∈ st.msgs, m.conversation_id ∈ st.convs

/-! ## Frontend chat handlers (source: `ChatPopup.tsx` / `ChatPage.tsx`) -/

/-- A message as held in the React component state
(`{id, role, content, vehicles?, timestamp}`; the fields the claims are
about). -/
structure UIMsg where
  role : Role
  content : String
  vehicles : List String
deriving DecidableEq, Repr

/-- The React component state of the chat UI:
`messages`, `input`, `isLoading`, `conversationId`. -/
structure UIState where
  messages : List UIMsg
  input : String
  isLoading : Bool
  conversationId : Option Nat
deriving DecidableEq, Repr

/-- The JavaScript `String.prototype.trim()` used by `handleSend`:
drops leading and trailing whitespace. -/
def jsTrim (s : String) : String :=
  ⟨((s.data.dropWhile Char.isWhitespace).reverse.dropWhile
      Char.isWhitespace).reverse⟩

/-- `handleSend`, synchronous part (source: `ChatPopup.tsx` lines 59-71,
`ChatPage.tsx` lines 117-129):
`if (!input.trim() || isLoading) return;` then append the user message,
clear the input and set `isLoading`.  Returns the trimmed text handed to
`chatApi.sendMessage`, or `none` when the call returned early. -/
def handleSendStart (s : UIState) : UIState × Option String :=
  if jsTrim s.input = "" ∨ s.isLoading = true then (s, none)
  else
    ({ s with
        messages := s.messages ++ [⟨.user, jsTrim s.input, []⟩]
        input := ""
        isLoading := true }, some (jsTrim s.input))

/-- The frontend error reply appended by the `catch` branch of
`handleSend` (source: `ChatPopup.tsx` lines 89-96): a fixed apology with
no vehicles. -/
def frontendErrorText : String :=
  "I\x27m \x73orry, I encountered an error. Please try again."

/-- `handleSend`, resolution of the awaited `chatApi.sendMessage` call
(source: `ChatPopup.tsx` lines 73-99): on success store the conversation
id and append the assistant message with its vehicles; on any thrown
error (`handleResponse` in `api.ts` throws on a non-ok response) append
the fixed frontend error reply; `isLoading` is cleared in `finally`. -/
def handleSendFinish (s : UIState) (r : Except ChatError ChatResp) : UIState :=
  match r with
  | .ok resp =>
      { s with
          conversationId := some resp.conversation_id
          messages := s.messages ++ [⟨.assistant, resp.response, resp.vehicles⟩]
          isLoading := false }
  | .error _ =>
      { s with
          messages := s.messages ++ [⟨.assistant, frontendErrorText, []⟩]
          isLoading := false }

/-- One complete user-visible chat turn: the frontend `handleSend`
around the backend `send_message`. -/
def chatTurn (dim : Nat) (embedSvc : Option (List Rat))
    (complete1 complete2 : Option String) (index : List EmbVehicle)
    (st : ChatStore) (ui : UIState) : ChatStore × UIState :=
  match handleSendStart ui with
  | (ui1, some text) =>
      let (st1, r) := sendMessage dim embedSvc complete1 complete2 index st
        ui.conversationId text
      (st1, handleSendFinish ui1 r)
  | (ui1, none) => (st, ui1)

/-! ## Hybrid Composer diversity cap (Modelled from the spec: §4.5 step 5;
the backend composer behind `recommendationsApi.getHybrid` is not among
the visible sources) -/

/-- A ranked candidate entering the diversity pass: id and brand. -/
structure HCand where
  vehicle_id : String
  brand : String
deriving DecidableEq, Repr

/-- Occurrences of a brand in a result list. -/
def brandCount (l : List HCand) (b : String) : Nat :=
  (l.filter (fun v => v.brand = b)).length

/-- `ceil(limit / 4)`, the per-brand diversity cap (spec §4.5 step 5). -/
def divCap (limit : Nat) : Nat := (limit + 3) / 4

/-- Modelled from the spec: the skip-and-requeue pass of the diversity
cap (§4.5 step 5).  Walks the fused ranking in order; an item whose brand
has already reached the cap is skipped and requeued after the others,
preserving overall order otherwise; the pass stops filling once `limit`
items are accepted. -/
def diversityGo (cap limit : Nat) :
    List HCand → List HCand → List HCand → List HCand × List HCand
  | [], out, rq => (out, rq)
  | v :: rest, out, rq =>
      if limit ≤ out.length then (out, rq ++ (v :: rest))
      else if brandCount out v.brand < cap then
        diversityGo cap limit rest (out ++ [v]) rq
      else
        diversityGo cap limit rest out (rq ++ [v])

/-- Modelled from the spec: the diversity-capped hybrid result.  The spec
requires the output to be exactly `limit` ids (or fewer if the catalog is
smaller, §4.5), so slots the capped pass could not fill are backfilled
from the requeued same-brand overflow. -/
def hybridDiversity (limit : Nat) (ranked : List HCand) : List HCand :=
  let p := diversityGo (divCap limit) limit ranked [] []
  p.1 ++ p.2.take (limit - p.1.length)

/-! ## Interaction tracking in the frontend service layer
(source: `src/lib/api.ts`) -/

/-- The browser `localStorage`, as a key-value list. -/
def LocalStorage : Type := List (String × String)

/-- `isAuthenticated()` (source: `api.ts` lines 242-244):
`!!localStorage.getItem('auth_token')`. -/
def isAuthenticatedLS (ls : LocalStorage) : Bool :=
  (List.lookup "auth_token" ls).isSome

/-- A `POST /api/v1/interactions/track` request body. -/
structure TrackReq where
  vehicle_id : String
  interaction_type : String
deriving DecidableEq, Repr

/-- `trackVehicleView(vehicleId)` (source: `api.ts` lines 262-277): the
requests issued — none when not authenticated (`if (!isAuthenticated())
return;`), otherwise one track call with `interaction_type: 'view'`. -/
def trackVehicleView (ls : LocalStorage) (vehicleId : String) : List TrackReq :=
  if isAuthenticatedLS ls then [⟨vehicleId, "view"⟩] else []

/-- `trackVehicleClick(vehicleId)` (source: `api.ts` lines 279-294):
same guard, with `interaction_type: 'click'`. -/
def trackVehicleClick (ls : LocalStorage) (vehicleId : String) : List TrackReq :=
  if isAuthenticatedLS ls then [⟨vehicleId, "click"⟩] else []

/-- A column declaration of a SQL table. -/
structure ColumnDef where
  name : String
  sqlType : String
  nullable : Bool
deriving DecidableEq, Repr

/-- The column list of `CREATE TABLE gold.user_interactions` (schema
file): only `interaction_type` carries `NOT NULL`; in particular
`user_id` is declared nullable. -/
def userInteractionsColumns : List ColumnDef :=
  [⟨"id", "SERIAL", false⟩,
   ⟨"user_id", "UUID", true⟩,
   ⟨"vehicle_id", "TEXT", true⟩,
   ⟨"interaction_type", "TEXT", false⟩,
   ⟨"session_id", "TEXT", true⟩,
   ⟨"interaction_score", "NUMERIC", true⟩,
   ⟨"extra_data", "JSONB", true⟩,
   ⟨"created_at", "TIMESTAMP", true⟩]

/-- Modelled from the spec: the outcome the concurrency model demands of
a second `send_message` issued on a conversation that already has one in
flight — it must be observable to the caller, either as a queued request
(the send still goes out, possibly later) or as a `ConversationBusy`
rejection signal (§5).  Observably, the call must either hand its text to
the transport or change the component state (queue entry / error
surfaced); a call that does neither is a silent drop. -/
def specBusySendObservable (before : UIState) (result : UIState × Option String) :
    Prop :=
  result.2.isSome ∨ result.1 ≠ before

/-! ## Concrete instances used by counterexamples and witnesses -/

/-- A four-vehicle catalog: `A` and `B` receive interactions, `C`
(created day 10) and `D` (created day 20) receive none. -/
def c5Catalog : List VehicleRow :=
  [⟨"A", "Toyota", 20000, 0⟩, ⟨"B", "Honda", 21000, 0⟩,
   ⟨"C", "Ford", 22000, 14400⟩, ⟨"D", "Kia", 23000, 28800⟩]

/-- Interactions for `c5Catalog`: two 28-day-old views of `A`, one fresh
favorite of `B` (at `now = 40320` minutes = day 28). -/
def c5Rows : List InteractionRow :=
  [⟨0, some "u", "A", .view, 0⟩, ⟨1, some "u", "A", .view, 0⟩,
   ⟨2, some "u", "B", .favorite, 40320⟩]

/-- Eight ranked candidates, all of one brand. -/
def c9AllToyota : List HCand :=
  [⟨"t1", "Toyota"⟩, ⟨"t2", "Toyota"⟩, ⟨"t3", "Toyota"⟩, ⟨"t4", "Toyota"⟩,
   ⟨"t5", "Toyota"⟩, ⟨"t6", "Toyota"⟩, ⟨"t7", "Toyota"⟩, ⟨"t8", "Toyota"⟩]

/-- Four ranked candidates of four distinct brands. -/
def c9Diverse : List HCand :=
  [⟨"a1", "Toyota"⟩, ⟨"b1", "Honda"⟩, ⟨"c1", "Ford"⟩, ⟨"d1", "Kia"⟩]

/-- A chat UI state with a send already in flight (`isLoading = true`)
and a second message typed into the input box. -/
def c8BusyState : UIState :=
  { messages := [⟨.user, "first message", []⟩], input := "second message",
    isLoading := true, conversationId := some 0 }

/-- An idle chat UI state with a message typed and nothing in flight. -/
def c1ReadyUI : UIState :=
  { messages := [], input := "hello", isLoading := false, conversationId := none }

/-- An empty backend chat store. -/
def emptyStore : ChatStore := ⟨[], [], 0, 0, 0⟩

/-- A one-row interactions table whose `SERIAL` sequence is consistent. -/
def c3Table : InteractionsTable :=
  ⟨[⟨0, some "u1", "veh1", .view, 0⟩], 1⟩

/-! ## Theorems -/

/-- C3 (counterexample): recording the very same interaction event
(identical user, vehicle, type and minute timestamp) twice yields
popularity `2` for the vehicle, while recording it once yields `1` — the
schema has no dedupe constraint, so the score is not the same and the
claimed idempotence fails. -/
theorem C3_duplicate_event_double_counts :
    totalInteractions
        (recordInteraction
          (recordInteraction InteractionsTable.empty (some "u1") "veh1" .view 0)
          (some "u1") "veh1" .view 0).rows "veh1" = 2 ∧
    totalInteractions
        (recordInteraction InteractionsTable.empty (some "u1") "veh1" .view 0).rows
        "veh1" = 1 ∧ (2 : Nat) ≠ 1 := by
  decide

/-- C3 (amended): recording an interaction event is never idempotent:
every recording — duplicate dedupe key or not — inserts a fresh
`SERIAL`-id row into `gold.user_interactions` and raises the vehicle's
`popular_vehicles` score by exactly one. -/
theorem C3_record_never_idempotent (t : InteractionsTable)
    (h : ∀ r ∈ t.rows, r.id < t.nextId) (u : Option String) (v : String)
    (ty : IType) (occurredAt : Nat) :
    totalInteractions (recordInteraction t u v ty occurredAt).rows v =
      totalInteractions t.rows v + 1 := by
  have hfresh : t.nextId ∉
      ((t.rows.filter (fun r => r.vehicle_id = v)).map (fun r => r.id)).toFinset := by
    intro hmem
    rcases List.mem_map.mp (List.mem_toFinset.mp hmem) with ⟨r, hr, hid⟩
    have := h r (List.mem_of_mem_filter hr)
    omega
  simp only [totalInteractions, recordInteraction, List.filter_append,
    List.map_append, List.toFinset_append]
  have hsing : (List.filter (fun r => decide (r.vehicle_id = v))
      [(⟨t.nextId, u, v, ty, occurredAt⟩ : InteractionRow)]) =
      [⟨t.nextId, u, v, ty, occurredAt⟩] := by
    simp [List.filter_cons]
  rw [hsing]
  simp only [List.map_cons, List.map_nil, List.toFinset_cons, List.toFinset_nil]
  rw [Finset.union_comm, Finset.insert_union, Finset.empty_union]
  exact Finset.card_insert_of_not_mem hfresh

/-- C3 (witness): the increment theorem applied to the concrete one-row
table. -/
theorem C3_record_never_idempotent_witness :
    totalInteractions
        (recordInteraction c3Table (some "u1") "veh1" .click 5).rows "veh1" =
      totalInteractions c3Table.rows "veh1" + 1 :=
  C3_record_never_idempotent c3Table (by decide) (some "u1") "veh1" .click 5

/-- C4 (counterexample): no choice of fixed base weights and of a decay
factor with a 14-day half-life makes the `popular_vehicles` score equal
to `Σ weight(type) * decay(age_days)`: a single view at age 0 forces
`weight(view) = 1`, and the same view observed at age 14 days would then
have to score `1/2`, yet the view still counts it as `1`. -/
theorem C4_no_decay_counterexample :
    ¬ ∃ (w : IType → Rat) (d : Nat → Rat), SpecDecay d ∧
      ∀ (rows : List InteractionRow) (v : String) (now : Nat),
        (totalInteractions rows v : Rat) = specPopScore w d now rows v := by
  rintro ⟨w, d, ⟨hd0, hd14, -⟩, h⟩
  have e1 : totalInteractions [⟨0, none, "x", .view, 0⟩] "x" = 1 := by decide
  have a0 : ageDays 0 0 = 0 := by decide
  have a14 : ageDays 20160 0 = 14 := by decide
  have h1 := h [⟨0, none, "x", .view, 0⟩] "x" 0
  have h2 := h [⟨0, none, "x", .view, 0⟩] "x" 20160
  rw [e1] at h1 h2
  simp only [specPopScore, List.filter_cons, List.filter_nil] at h1 h2
  norm_num [a0, a14, hd0, hd14] at h1 h2
  rw [← h1] at h2
  norm_num at h2

/-- C4 (amended): the `popular_vehicles` popularity score is the plain
number of the vehicle's interaction rows (the distinct `SERIAL` ids),
with no per-type weighting and no time decay: under distinct row ids it
equals the filtered row count, and it is invariant under arbitrarily
changing every event's type and timestamp. -/
theorem C4_popularity_is_plain_count (rows : List InteractionRow)
    (h : (rows.map (fun r => r.id)).Nodup) (v : String) :
    totalInteractions rows v = (rows.filter (fun r => r.vehicle_id = v)).length ∧
    ∀ (f : InteractionRow → IType) (g : InteractionRow → Nat),
      totalInteractions
        (rows.map (fun r =>
          { r with interaction_type := f r, created_at := g r })) v =
        totalInteractions rows v := by
  constructor
  · have hnd : ((rows.filter (fun r => r.vehicle_id = v)).map (fun r => r.id)).Nodup :=
      h.sublist ((List.filter_sublist rows).map (fun r => r.id))
    rw [totalInteractions, List.card_toFinset, hnd.dedup, List.length_map]
  · intro f g
    simp only [totalInteractions, List.filter_map, List.map_map]
    rfl

/-- C4 (witness): the plain-count theorem applied to the concrete
interaction list `c5Rows`. -/
theorem C4_popularity_is_plain_count_witness :
    totalInteractions c5Rows "A" =
      (c5Rows.filter (fun r => r.vehicle_id = "A")).length ∧
    ∀ (f : InteractionRow → IType) (g : InteractionRow → Nat),
      totalInteractions
        (c5Rows.map (fun r =>
          { r with interaction_type := f r, created_at := g r })) "A" =
        totalInteractions c5Rows "A" :=
  C4_popularity_is_plain_count c5Rows (by decide) "A"

/-- C5 (counterexample): the `popular` ranking is not sorted by
non-increasing decayed score and does not break ties by `created_at`
descending.  On `c5Catalog`/`c5Rows` at day 28 the view returns
`[A, B, C, D]` (counts 2, 1, 0, 0), yet for every admissible weight and
decay assignment the decayed score of `B` (one fresh favorite) strictly
exceeds that of `A` (two 28-day-old views); and among the tied tail the
older `C` (created minute 14400) precedes the newer `D` (created minute
28800). -/
theorem C5_order_counterexample :
    popularIds c5Catalog c5Rows 4 = ["A", "B", "C", "D"] ∧
    (∀ (w : IType → Rat) (d : Nat → Rat), SpecWeights w → SpecDecay d →
      specPopScore w d 40320 c5Rows "A" < specPopScore w d 40320 c5Rows "B") ∧
    (14400 : Nat) < 28800 := by
  refine ⟨by decide, ?_, by norm_num⟩
  rintro w d ⟨hfc, hcc, hcl, hvc, hvp⟩ ⟨hd0, hd14, hmono⟩
  have eA : specPopScore w d 40320 c5Rows "A" =
      w .view * d 28 + w .view * d 28 := by
    simp [specPopScore, c5Rows, ageDays]
  have eB : specPopScore w d 40320 c5Rows "B" = w .favorite := by
    simp [specPopScore, c5Rows, ageDays, hd0]
  have hd28 : d 28 ≤ 1 / 2 := hd14 ▸ hmono 14 28 (by norm_num)
  have hstep : w .view * d 28 ≤ w .view * (1 / 2) :=
    mul_le_mul_of_nonneg_left hd28 (le_of_lt hvp)
  rw [eA, eB]
  linarith

/-- C5 (amended): for a duplicate-free catalog of size `N ≥ L`,
`popular(L)` returns exactly `L` distinct vehicle ids sorted by
non-increasing raw interaction count (`total_interactions DESC`); no
decay is applied and ties keep the underlying catalog order. -/
theorem C5_popular_count_sorted (vs : List VehicleRow)
    (rows : List InteractionRow) (limit : Nat)
    (hnd : (vs.map (fun v => v.vehicle_id)).Nodup) (hlim : limit ≤ vs.length) :
    (popularIds vs rows limit).length = limit ∧
    (popularIds vs rows limit).Nodup ∧
    ((popularVehicles vs rows).take limit).Sorted popRel := by
  have hperm : List.Perm ((popularVehicles vs rows).map (fun r => r.vehicle_id))
      (vs.map (fun v => v.vehicle_id)) := by
    have := (List.perm_insertionSort popRel (vs.map (popularRowOf rows))).map
      (fun r : PopularRow => r.vehicle_id)
    simpa [popularVehicles, List.map_map, Function.comp] using this
  refine ⟨?_, ?_, ?_⟩
  · simp only [popularIds, List.length_map, List.length_take, popularVehicles,
      List.length_insertionSort]
    simp [List.length_map, Nat.min_eq_left, hlim]
  · have hnd2 : ((popularVehicles vs rows).map (fun r => r.vehicle_id)).Nodup :=
      (hperm.nodup_iff).mpr hnd
    have heq : popularIds vs rows limit =
        ((popularVehicles vs rows).map (fun r => r.vehicle_id)).take limit := by
      simp [popularIds, List.map_take]
    rw [heq]
    exact hnd2.sublist (List.take_sublist _ _)
  · exact (List.sorted_insertionSort popRel _).sublist (List.take_sublist _ _)

/-- C5 (witness): the sortedness theorem applied to the concrete
four-vehicle catalog with `L = 2`. -/
theorem C5_popular_count_sorted_witness :
    (popularIds c5Catalog c5Rows 2).length = 2 ∧
    (popularIds c5Catalog c5Rows 2).Nodup ∧
    ((popularVehicles c5Catalog c5Rows).take 2).Sorted popRel :=
  C5_popular_count_sorted c5Catalog c5Rows 2 (by decide) (by decide)

/-- C6 (confirmed): a `similar(v, k)` lookup never returns the query
vehicle itself, because the `exclude` set always contains it; and the
`CompareModal` search likewise filters the current vehicle out of its
results. -/
theorem C6_similar_never_returns_query (dim : Nat) (index : List EmbVehicle)
    (v : EmbVehicle) (k : Nat) :
    v.vehicle_id ∉ similar dim index v k ∧
    ∀ (cur : String) (items : List EmbVehicle),
      cur ∉ (compareModalFilter cur items).map (fun x => x.vehicle_id) := by
  constructor
  · intro hmem
    by_cases hdim : v.embedding.length = dim
    · simp only [similar, nearest, if_pos hdim] at hmem
      simp only [List.mem_map] at hmem
      rcases hmem with ⟨c, hc, hid⟩
      have hc2 := (List.mem_insertionSort (nnRel v.embedding)).mp
        (List.mem_of_mem_take hc)
      have hc3 := (List.mem_filter.mp hc2).2
      simp only [decide_eq_true_eq] at hc3
      exact hc3.2 (by simp [hid])
    · simp [similar, nearest, if_neg hdim] at hmem
  · intro cur items hmem
    simp only [List.mem_map] at hmem
    rcases hmem with ⟨c, hc, hid⟩
    have hne := (List.mem_filter.mp hc).2
    simp only [decide_eq_true_eq] at hne
    exact hne (by simp [hid])

/-- C7 (confirmed): a user with fewer than `minInteractions` (default 3)
interactions — in particular with none — makes `rank_for_user` fail with
the recoverable `NoHistory` error, and the `personalized` caller then
falls back to the `popular` ranking. -/
theorem C7_noHistory_fallback (dim : Nat) (d : Nat → Rat) (now : Nat)
    (index : List EmbVehicle) (vs : List VehicleRow)
    (rows : List InteractionRow) (u : String) (limit : Nat)
    (h : (userEvents rows u).length < minInteractions) :
    rankForUser dim d now index rows u limit = .error .noHistory ∧
    personalizedOrPopular dim d now index vs rows u limit =
      popularIds vs rows limit := by
  have h1 : rankForUser dim d now index rows u limit = .error .noHistory := by
    simp only [rankForUser]
    rw [if_pos h]
  exact ⟨h1, by simp [personalizedOrPopular, h1]⟩

/-- C7 (witness): the fallback theorem applied to a user with zero
interactions. -/
theorem C7_noHistory_fallback_witness :
    rankForUser 2 (fun _ => 1) 0 [] [] "alice" 5 = .error .noHistory ∧
    personalizedOrPopular 2 (fun _ => 1) 0 [] c5Catalog [] "alice" 5 =
      popularIds c5Catalog [] 5 :=
  C7_noHistory_fallback 2 (fun _ => 1) 0 [] c5Catalog [] "alice" 5 (by decide)

/-- C8 (counterexample): a second `handleSend` on a conversation with a
send already in flight is neither queued nor rejected with a
`ConversationBusy` signal: on the busy state the call hands nothing to
the transport and leaves the component state bit-for-bit unchanged, so
no observable queuing or rejection required by the spec occurs. -/
theorem C8_busy_counterexample :
    handleSendStart c8BusyState = (c8BusyState, none) ∧
    ¬ specBusySendObservable c8BusyState (handleSendStart c8BusyState) := by
  have hl : c8BusyState.isLoading = true := rfl
  have heq : handleSendStart c8BusyState = (c8BusyState, none) := by
    rw [handleSendStart, if_pos (Or.inr hl)]
  refine ⟨heq, ?_⟩
  intro hobs
  rw [heq] at hobs
  rcases hobs with hsome | hne
  · simp at hsome
  · exact hne rfl

/-- C8 (amended): while a send is in flight (`isLoading = true`) a second
`handleSend` call is silently dropped — it returns early, issues no
request and appends nothing — so at most one `send_message` per chat
component is ever in flight and transcript writes never interleave; but
the drop is silent, with no queuing and no `ConversationBusy` error. -/
theorem C8_busy_send_silently_dropped (s : UIState) (h : s.isLoading = true) :
    handleSendStart s = (s, none) := by
  rw [handleSendStart, if_pos (Or.inr h)]

/-- C8 (witness): the no-op theorem applied to the concrete busy state. -/
theorem C8_busy_send_silently_dropped_witness :
    handleSendStart c8BusyState = (c8BusyState, none) :=
  C8_busy_send_silently_dropped c8BusyState rfl

/-- C10 (confirmed): without a stored auth token (`isAuthenticated()`
false) `trackVehicleView` and `trackVehicleClick` return before issuing
any interaction request, so anonymous views and clicks are never
recorded — although the `gold.user_interactions` schema declares
`user_id` nullable. -/
theorem C10_anonymous_not_tracked (ls : LocalStorage) (vehicleId : String)
    (h : isAuthenticatedLS ls = false) :
    trackVehicleView ls vehicleId = [] ∧ trackVehicleClick ls vehicleId = [] ∧
    ∀ c ∈ userInteractionsColumns, c.name = "user_id" → c.nullable = true := by
  refine ⟨?_, ?_, by decide⟩
  · simp [trackVehicleView, h]
  · simp [trackVehicleClick, h]

/-- C10 (witness): the theorem applied to an empty `localStorage`. -/
theorem C10_anonymous_not_tracked_witness :
    trackVehicleView [] "veh1" = [] ∧ trackVehicleClick [] "veh1" = [] ∧
    ∀ c ∈ userInteractionsColumns, c.name = "user_id" → c.nullable = true :=
  C10_anonymous_not_tracked [] "veh1" rfl

/-- Adding one candidate to the accepted list raises its brand's count by
exactly one and leaves the other brands unchanged. -/
theorem brandCount_append_singleton (out : List HCand) (v : HCand) (b : String) :
    brandCount (out ++ [v]) b = brandCount out b + if v.brand = b then 1 else 0 := by
  simp only [brandCount, List.filter_append, List.length_append, List.filter_cons,
    List.filter_nil]
  split
  · rename_i hb
    simp only [decide_eq_true_eq] at hb
    simp [hb]
  · rename_i hb
    simp only [decide_eq_true_eq] at hb
    simp [hb]

/-- Invariant of the skip-and-requeue pass: if every brand is within the
cap in the accepted list, it stays within the cap. -/
theorem diversityGo_brand_bound (cap limit : Nat) :
    ∀ (input out rq : List HCand), (∀ b, brandCount out b ≤ cap) →
      ∀ b, brandCount (diversityGo cap limit input out rq).1 b ≤ cap := by
  intro input
  induction input with
  | nil =>
      intro out rq h b
      simpa [diversityGo] using h b
  | cons v rest ih =>
      intro out rq h b
      rw [diversityGo]
      split
      · exact h b
      · split
        · rename_i hfill hcap
          apply ih
          intro b2
          rw [brandCount_append_singleton]
          split
          · rename_i hb
            have := hb ▸ hcap
            omega
          · simpa using h b2
        · exact ih out (rq ++ [v]) h b

/-- C9 (counterexample): with a catalog of eight same-brand candidates
and `L = 8`, the spec's own requirement that the hybrid output have
exactly `L` ids forces the diversity pass to backfill from the requeued
overflow, and the brand ends up appearing `8 > ceil(8/4) = 2` times in
the top `L`. -/
theorem C9_diversity_cap_counterexample :
    (hybridDiversity 8 c9AllToyota).length = 8 ∧
    brandCount (hybridDiversity 8 c9AllToyota) "Toyota" = 8 ∧
    divCap 8 = 2 ∧ ¬(8 ≤ 2) := by
  decide

/-- C9 (amended): the `ceil(L/4)` per-brand cap holds for every hybrid
result that the skip-and-requeue pass can fill without backfilling
requeued same-brand overflow (in particular whenever the catalog has
enough brand variety); only the exactly-`L`-output backfill can exceed
it. -/
theorem C9_diversity_cap_main_pass (limit : Nat) (ranked : List HCand)
    (h : (diversityGo (divCap limit) limit ranked [] []).2 = [] ∨
      (diversityGo (divCap limit) limit ranked [] []).1.length = limit)
    (b : String) :
    brandCount (hybridDiversity limit ranked) b ≤ divCap limit := by
  have hmain := diversityGo_brand_bound (divCap limit) limit ranked [] []
    (by intro b2; simp [brandCount]) b
  rcases h with h | h
  · simpa [hybridDiversity, h] using hmain
  · simpa [hybridDiversity, h] using hmain

/-- C9 (witness): the cap theorem applied to a four-brand catalog with
`L = 4` (cap 1, no backfill needed). -/
theorem C9_diversity_cap_main_pass_witness :
    brandCount (hybridDiversity 4 c9Diverse) "Toyota" ≤ divCap 4 :=
  C9_diversity_cap_main_pass 4 c9Diverse (Or.inl (by decide)) "Toyota"

/-- Shape of a turn that gets past the embedding step: the user message
and an assistant message are appended with consecutive ids and
timestamps, and when both completion attempts fail the assistant message
is the fixed apology with no citations. -/
theorem sendMessageIn_ok_shape (dim : Nat) (q : List Rat)
    (c1 c2 : Option String) (index : List EmbVehicle) (st : ChatStore)
    (cid : Nat) (text : String) :
    ∃ (rtext : String) (cited : List String),
      sendMessage.sendMessageIn dim (some q) c1 c2 index st cid text =
        ({ st with
            msgs := st.msgs ++
              [⟨st.nextMsg, cid, .user, text, [], st.clock⟩,
               ⟨st.nextMsg + 1, cid, .assistant, rtext, cited, st.clock + 1⟩]
            nextMsg := st.nextMsg + 1 + 1
            clock := st.clock + 1 + 1 },
          .ok ⟨cid, st.nextMsg + 1, rtext, cited⟩) ∧
      (c1 = none → c2 = none → rtext = apologyText ∧ cited = []) := by
  cases c1 with
  | some r =>
      refine ⟨r, (retrievedCandidates dim index q).take citeCap, ?_,
        by intro h; cases h⟩
      simp [sendMessage.sendMessageIn]
  | none =>
      cases c2 with
      | some r =>
          refine ⟨r, (retrievedCandidates dim index q).take citeCap, ?_,
            by intro _ h; cases h⟩
          simp [sendMessage.sendMessageIn]
      | none =>
          refine ⟨apologyText, [], ?_, by intro _ _; exact ⟨rfl, rfl⟩⟩
          simp [sendMessage.sendMessageIn]

/-- C1 (confirmed): whenever an external service fails during a chat turn
— the embedding service down, or the completion service down on both the
first attempt and its one retry — the turn still ends with an assistant
message appended after the user's message: the fixed apology with no
cited vehicles (the backend one when the completion fails after its
retry, the frontend `catch` one when the backend surfaces an error), and
never a crash or hard error shown to the user. -/
theorem C1_external_failure_fail_soft (dim : Nat)
    (embedSvc : Option (List Rat)) (c1 c2 : Option String)
    (index : List EmbVehicle) (st : ChatStore) (ui : UIState)
    (hin : ¬ jsTrim ui.input = "") (hload : ui.isLoading = false)
    (hcid : ui.conversationId = none ∨
      ∃ c, ui.conversationId = some c ∧ c ∈ st.convs)
    (hfail : embedSvc = none ∨ (c1 = none ∧ c2 = none)) :
    ∃ m : UIMsg,
      (chatTurn dim embedSvc c1 c2 index st ui).2.messages =
        ui.messages ++ [⟨.user, jsTrim ui.input, []⟩, m] ∧
      m.role = .assistant ∧ m.vehicles = [] ∧
      (m.content = apologyText ∨ m.content = frontendErrorText) ∧
      (∀ q, embedSvc = some q → m.content = apologyText) := by
  have hstart : handleSendStart ui =
      ({ ui with
          messages := ui.messages ++ [⟨.user, jsTrim ui.input, []⟩]
          input := ""
          isLoading := true }, some (jsTrim ui.input)) := by
    rw [handleSendStart, if_neg]
    intro hor
    rcases hor with h | h
    · exact hin h
    · rw [hload] at h
      exact Bool.false_ne_true h
  cases embedSvc with
  | none =>
      refine ⟨⟨.assistant, frontendErrorText, []⟩, ?_, rfl, rfl, Or.inr rfl, ?_⟩
      · rcases hcid with hnone | ⟨c, hsome, hc⟩
        · simp [chatTurn, hstart, sendMessage, sendMessage.sendMessageIn,
            handleSendFinish, hnone]
        · simp [chatTurn, hstart, sendMessage, sendMessage.sendMessageIn,
            handleSendFinish, hsome, hc]
      · intro q hq
        cases hq
  | some q =>
      have hcc : c1 = none ∧ c2 = none := by
        rcases hfail with h | h
        · cases h
        · exact h
      obtain ⟨hc1, hc2⟩ := hcc
      subst hc1
      subst hc2
      rcases hcid with hnone | ⟨c, hsome, hc⟩
      · obtain ⟨rtext, cited, hshape, hap⟩ :=
          sendMessageIn_ok_shape dim q none none index
            { st with convs := st.convs ++ [st.nextConv], nextConv := st.nextConv + 1 }
            st.nextConv (jsTrim ui.input)
        obtain ⟨ha1, ha2⟩ := hap rfl rfl
        subst ha1
        subst ha2
        have hsend : sendMessage dim (some q) none none index st
            ui.conversationId (jsTrim ui.input) =
            sendMessage.sendMessageIn dim (some q) none none index
              { st with
                  convs := st.convs ++ [st.nextConv]
                  nextConv := st.nextConv + 1 }
              st.nextConv (jsTrim ui.input) := by
          rw [hnone]
          simp [sendMessage]
        rw [hshape] at hsend
        refine ⟨⟨.assistant, apologyText, []⟩, ?_, rfl, rfl, Or.inl rfl, ?_⟩
        · simp [chatTurn, hstart, hsend, handleSendFinish]
        · intro q2 hq2
          rfl
      · obtain ⟨rtext, cited, hshape, hap⟩ :=
          sendMessageIn_ok_shape dim q none none index st c (jsTrim ui.input)
        obtain ⟨ha1, ha2⟩ := hap rfl rfl
        subst ha1
        subst ha2
        have hsend : sendMessage dim (some q) none none index st
            ui.conversationId (jsTrim ui.input) =
            sendMessage.sendMessageIn dim (some q) none none index st c
              (jsTrim ui.input) := by
          rw [hsome]
          simp [sendMessage, hc]
        rw [hshape] at hsend
        refine ⟨⟨.assistant, apologyText, []⟩, ?_, rfl, rfl, Or.inl rfl, ?_⟩
        · simp [chatTurn, hstart, hsend, handleSendFinish]
        · intro q2 hq2
          rfl

/-- C1 (witness): the fail-soft theorem applied to an idle UI, an empty
store and a failing embedding service. -/
theorem C1_external_failure_fail_soft_witness :
    ∃ m : UIMsg,
      (chatTurn 2 none none none [] emptyStore c1ReadyUI).2.messages =
        c1ReadyUI.messages ++ [⟨.user, jsTrim c1ReadyUI.input, []⟩, m] ∧
      m.role = .assistant ∧ m.vehicles = [] ∧
      (m.content = apologyText ∨ m.content = frontendErrorText) ∧
      (∀ q, (none : Option (List Rat)) = some q → m.content = apologyText) :=
  C1_external_failure_fail_soft 2 none none none [] emptyStore c1ReadyUI
    (by decide) rfl (Or.inl rfl) (Or.inl rfl)

/-- C2 (confirmed): on a well-formed store, a successful embed turn of
`send_message` (new or existing conversation) returns a conversation id
for which `chat_messages` lists the user's message followed by the
assistant's reply in chronological (`created_at`) order, and after
deleting the conversation every `chat_messages` call on that id fails
with `NotFound`. -/
theorem C2_conversation_round_trip (dim : Nat) (q : List Rat)
    (c1 c2 : Option String) (index : List EmbVehicle) (st : ChatStore)
    (cid? : Option Nat) (text : String) (hwf : StoreWF st)
    (hcid : cid? = none ∨ ∃ c, cid? = some c ∧ c ∈ st.convs) :
    ∃ (st2 : ChatStore) (resp : ChatResp) (pre : List ChatMsg) (u a : ChatMsg),
      sendMessage dim (some q) c1 c2 index st cid? text = (st2, .ok resp) ∧
      chatMessages st2 resp.conversation_id = .ok (pre ++ [u, a]) ∧
      u.role = .user ∧ u.content = text ∧ a.role = .assistant ∧
      u.created_at < a.created_at ∧
      chatMessages (deleteConversation st2 resp.conversation_id)
        resp.conversation_id = .error .notFound := by
  obtain ⟨hnd, hlt, hmem⟩ := hwf
  rcases hcid with hnone | ⟨c, hsome, hc⟩
  · subst hnone
    obtain ⟨rtext, cited, hshape, -⟩ :=
      sendMessageIn_ok_shape dim q c1 c2 index
        { st with convs := st.convs ++ [st.nextConv], nextConv := st.nextConv + 1 }
        st.nextConv text
    have hsend : sendMessage dim (some q) c1 c2 index st none text =
        sendMessage.sendMessageIn dim (some q) c1 c2 index
          { st with
              convs := st.convs ++ [st.nextConv]
              nextConv := st.nextConv + 1 }
          st.nextConv text := by
      simp [sendMessage]
    rw [hshape] at hsend
    have hnotin : st.nextConv ∉ st.convs := fun hmem2 => by
      have := hlt _ hmem2
      omega
    refine ⟨_, _, [],
      ⟨st.nextMsg, st.nextConv, .user, text, [], st.clock⟩,
      ⟨st.nextMsg + 1, st.nextConv, .assistant, rtext, cited, st.clock + 1⟩,
      hsend, ?_, rfl, rfl, rfl, Nat.lt_succ_self _, ?_⟩
    · simp only [chatMessages]
      rw [if_pos (by simp)]
      congr 1
      rw [List.filter_append]
      have hold : st.msgs.filter
          (fun m => decide (m.conversation_id = st.nextConv)) = [] := by
        rw [List.filter_eq_nil_iff]
        intro m hm
        have h1 := hlt m.conversation_id (hmem m hm)
        simp only [decide_eq_true_eq]
        omega
      rw [hold]
      simp
    · simp only [deleteConversation, chatMessages]
      rw [if_neg]
      have hnd2 : (st.convs ++ [st.nextConv]).Nodup := by
        simp [List.nodup_append, hnd, hnotin]
      intro habs
      have habs2 := (List.Nodup.mem_erase_iff hnd2).mp habs
      exact habs2.1 rfl
  · subst hsome
    obtain ⟨rtext, cited, hshape, -⟩ :=
      sendMessageIn_ok_shape dim q c1 c2 index st c text
    have hsend : sendMessage dim (some q) c1 c2 index st (some c) text =
        sendMessage.sendMessageIn dim (some q) c1 c2 index st c text := by
      simp [sendMessage, hc]
    rw [hshape] at hsend
    refine ⟨_, _, st.msgs.filter (fun m => m.conversation_id = c),
      ⟨st.nextMsg, c, .user, text, [], st.clock⟩,
      ⟨st.nextMsg + 1, c, .assistant, rtext, cited, st.clock + 1⟩,
      hsend, ?_, rfl, rfl, rfl, Nat.lt_succ_self _, ?_⟩
    · simp only [chatMessages]
      rw [if_pos (by simpa using hc)]
      congr 1
      rw [List.filter_append]
      simp
    · simp only [deleteConversation, chatMessages]
      rw [if_neg]
      intro habs
      have habs2 := (List.Nodup.mem_erase_iff (by simpa using hnd)).mp habs
      exact habs2.1 rfl

/-- C2 (witness): the round-trip theorem applied to the empty store and a
new conversation. -/
theorem C2_conversation_round_trip_witness :
    ∃ (st2 : ChatStore) (resp : ChatResp) (pre : List ChatMsg) (u a : ChatMsg),
      sendMessage 2 (some [1, 0]) none none [] emptyStore none "need a car" =
        (st2, .ok resp) ∧
      chatMessages st2 resp.conversation_id = .ok (pre ++ [u, a]) ∧
      u.role = .user ∧ u.content = "need a car" ∧ a.role = .assistant ∧
      u.created_at < a.created_at ∧
      chatMessages (deleteConversation st2 resp.conversation_id)
        resp.conversation_id = .error .notFound :=
  C2_conversation_round_trip 2 [1, 0] none none [] emptyStore none "need a car"
    ⟨by simp [emptyStore], by simp [emptyStore], by simp [emptyStore]⟩
    (Or.inl rfl)
